import Mathlib

/-!
Shallow embedding of the endless-runner game-loop core
(Blue Slide Park inspired runner; canonical implementation in the
repository's game module: state machine, lane input, segment/obstacle
recycling, collision detection, scoring).

Numbers are modelled as rationals (exact arithmetic over the same
formulas the source computes).  Calls to Math.random are modelled as
oracle inputs: each recycled segment consumes one RecycleChoice from a
list (the horizontal wiggle and the optional obstacle spawn), and
world creation takes one optional SpawnChoice per created segment.
All theorems below are proved for every value of these oracles.
-/

namespace BlueSlide

/-- Game state enumeration: READY, PLAYING, GAME_OVER (from the GameState enum). -/
inductive GameState where
  | READY
  | PLAYING
  | GAME_OVER
deriving DecidableEq

/-- A 3D position, as used for the player mesh, slide segments and obstacles. -/
structure Vec3 where
  x : ℚ
  y : ℚ
  z : ℚ
deriving DecidableEq

/-- Lane center X coordinates (source constant LANE_X_POSITIONS = [-1.5, 0, 1.5]). -/
def LANE_X_POSITIONS : List ℚ := [-3/2, 0, 3/2]

/-- Segment length along the forward axis (source constant SEGMENT_LENGTH = 20). -/
def SEGMENT_LENGTH : ℚ := 20

/-- Number of slide segments in the ring (source constant SEGMENT_COUNT = 8). -/
def SEGMENT_COUNT : ℕ := 8

/-- Length of the whole segment ring: SEGMENT_LENGTH * SEGMENT_COUNT. -/
def ringLen : ℚ := SEGMENT_LENGTH * (SEGMENT_COUNT : ℚ)

/-- Camera position, set once by createScene to (0, 3, 8) and never moved. -/
def cameraPos : Vec3 := ⟨0, 3, 8⟩

/-- Base forward speed (source constant baseForwardSpeed = 10). -/
def baseForwardSpeed : ℚ := 10

/-- Player collision radius (0.5, from checkCollisions). -/
def playerRadius : ℚ := 1/2

/-- Obstacle collision radius (0.6, from checkCollisions). -/
def obstacleRadius : ℚ := 3/5

/-- Swipe threshold in pixels (SWIPE_THRESHOLD = 40 in onPointerUp). -/
def SWIPE_THRESHOLD : ℚ := 40

/-- Player lane interpolation factor (LERP_FACTOR = 10 in updateGame). -/
def LERP_FACTOR : ℚ := 10

/-- The mutable module state of the game: game state, score and speed
accumulators, lane state, the player mesh position, the segment ring,
the live obstacle list and the pointer drag state. -/
structure World where
  gameState : GameState
  score : ℚ
  highScore : ℚ
  elapsedSinceStart : ℚ
  forwardSpeed : ℚ
  currentLaneIndex : ℤ
  targetLaneX : ℚ
  player : Vec3
  slideSegments : List Vec3
  obstacles : List Vec3
  isDragging : Bool
  dragStartX : ℚ
  dragCurrentX : ℚ
deriving DecidableEq

/-- Indexing into LANE_X_POSITIONS (the source indexes the array with a
clamped integer; out-of-range hits default to 0, which never occurs on
the clamped indices actually used). -/
def laneX (i : ℤ) : ℚ := LANE_X_POSITIONS.getD i.toNat 0

/-- setLane: clamp the requested index to [0, LANE_X_POSITIONS.length - 1]
and update currentLaneIndex and targetLaneX. -/
def setLane (i : ℤ) (w : World) : World :=
  let idx := max 0 (min ((LANE_X_POSITIONS.length : ℤ) - 1) i)
  { w with currentLaneIndex := idx, targetLaneX := laneX idx }

/-- onPointerDown: begin a drag, recording the origin X. -/
def onPointerDown (clientX : ℚ) (w : World) : World :=
  { w with isDragging := true, dragStartX := clientX, dragCurrentX := clientX }

/-- onPointerMove: while dragging, record the latest X. -/
def onPointerMove (clientX : ℚ) (w : World) : World :=
  if w.isDragging then { w with dragCurrentX := clientX } else w

/-- onPointerUp: on release, apply a lane change when the horizontal
displacement exceeds the swipe threshold, then stop dragging.
The source applies the lane change without inspecting gameState. -/
def onPointerUp (w : World) : World :=
  if w.isDragging then
    let deltaX := w.dragCurrentX - w.dragStartX
    let w1 :=
      if deltaX > SWIPE_THRESHOLD then setLane (w.currentLaneIndex + 1) w
      else if deltaX < -SWIPE_THRESHOLD then setLane (w.currentLaneIndex - 1) w
      else w
    { w1 with isDragging := false }
  else w

/-- Oracle value for one successful obstacle spawn: the random lane index
(Math.floor of random times 3) and the random local offset within the
segment span (random times SEGMENT_LENGTH minus SEGMENT_LENGTH / 2). -/
structure SpawnChoice where
  laneIndex : ℤ
  localZ : ℚ
deriving DecidableEq

/-- Oracle value for one segment recycle: the horizontal wiggle
((random - 0.5) * 1.0) and the optional obstacle spawn (none when
random exceeds OBSTACLE_CHANCE_PER_SEGMENT). -/
structure RecycleChoice where
  wiggleX : ℚ
  spawn : Option SpawnChoice
deriving DecidableEq

/-- spawnObstacleOnSegment: when the spawn roll succeeds, push a new
obstacle cube at (lane X, 0.6, segment z + local offset). -/
def spawnObstacleOnSegment (choice : Option SpawnChoice) (segZ : ℚ)
    (obstacles : List Vec3) : List Vec3 :=
  match choice with
  | none => obstacles
  | some c => obstacles ++ [⟨laneX c.laneIndex, 3/5, segZ + c.localZ⟩]

/-- Initial segment positions from createWorld: segment i is created by
createSlideSegment at (0, 0, -i * SEGMENT_LENGTH). -/
def initSegments : List Vec3 :=
  (List.range SEGMENT_COUNT).map fun (i : ℕ) => ⟨0, 0, -(i : ℚ) * SEGMENT_LENGTH⟩

/-- createWorld: clear segments and obstacles, create SEGMENT_COUNT
segments at -i * SEGMENT_LENGTH each with an optional spawned obstacle,
recenter the lane state and place the player at (center lane X, 1, 0). -/
def createWorld (spawns : List (Option SpawnChoice)) (w : World) : World :=
  { w with
    slideSegments := initSegments,
    obstacles := (List.range SEGMENT_COUNT).foldl
      (fun obs i => spawnObstacleOnSegment (spawns.getD i none)
        (-(i : ℚ) * SEGMENT_LENGTH) obs) [],
    currentLaneIndex := 1,
    targetLaneX := laneX 1,
    player := ⟨laneX 1, 1, 0⟩ }

/-- resetGame: zero score and elapsed time, restore the base speed,
recenter the lane and rebuild the world. -/
def resetGame (spawns : List (Option SpawnChoice)) (w : World) : World :=
  createWorld spawns
    { w with
      score := 0, elapsedSinceStart := 0,
      forwardSpeed := baseForwardSpeed,
      currentLaneIndex := 1, targetLaneX := laneX 1 }

/-- startGame: resetGame, then enter PLAYING. -/
def startGame (spawns : List (Option SpawnChoice)) (w : World) : World :=
  { resetGame spawns w with gameState := GameState.PLAYING }

/-- triggerGameOver: enter GAME_OVER and commit the score to the high
score when it is greater. -/
def triggerGameOver (w : World) : World :=
  { w with
    gameState := GameState.GAME_OVER,
    highScore := if w.score > w.highScore then w.score else w.highScore }

/-- Sphere-sphere collision test from checkCollisions: squared distance
between obstacle and player centers against the squared combined radius. -/
def collides (p o : Vec3) : Bool :=
  decide ((o.x - p.x) * (o.x - p.x) + (o.y - p.y) * (o.y - p.y)
      + (o.z - p.z) * (o.z - p.z)
    < (playerRadius + obstacleRadius) * (playerRadius + obstacleRadius))

/-- checkCollisions: scan the live obstacles in order; the first one
within the combined radius triggers game over and returns at once
(skipping the cleanup sweep); otherwise obstacles that have passed more
than 10 units behind the camera are removed. -/
def checkCollisions (w : World) : World :=
  if w.obstacles.any (fun o => collides w.player o) then
    triggerGameOver w
  else
    { w with obstacles := w.obstacles.filter (fun o => ¬ (o.z > cameraPos.z + 10)) }

/-- Player lane interpolation step from updateGame:
position.x += (targetLaneX - position.x) * min(LERP_FACTOR * delta, 1). -/
def lerpStep (x target δ : ℚ) : ℚ := x + (target - x) * min (LERP_FACTOR * δ) 1

/-- Forward speed recomputed each tick:
baseForwardSpeed + (elapsedSinceStart + delta) * 0.5. -/
def newSpeed (w : World) (δ : ℚ) : ℚ :=
  baseForwardSpeed + (w.elapsedSinceStart + δ) * (1/2)

/-- Advance an obstacle along the forward axis by the tick displacement. -/
def advanceObstacle (c : ℚ) (o : Vec3) : Vec3 := ⟨o.x, o.y, o.z + c⟩

/-- One pass of the slideSegments.forEach loop of updateGame, threading
the obstacle list and the recycle oracle: each segment advances by the
tick displacement c; a segment whose forward edge passes the recycle
threshold is translated back by the ring length, gets a random x wiggle,
clears obstacles within 0.6 * SEGMENT_LENGTH of its new position and may
spawn a fresh obstacle. -/
def stepSegments (c : ℚ) :
    List Vec3 → List Vec3 → List RecycleChoice → List Vec3 × List Vec3
  | [], obs, _ => ([], obs)
  | seg :: rest, obs, oracle =>
    if seg.z + c - SEGMENT_LENGTH / 2 > cameraPos.z + 5 then
      let z2 := seg.z + c - SEGMENT_LENGTH * (SEGMENT_COUNT : ℚ)
      let choice := oracle.headD ⟨0, none⟩
      let obs2 := spawnObstacleOnSegment choice.spawn z2
        (obs.filter (fun o => ¬ (|o.z - z2| < SEGMENT_LENGTH * (3/5))))
      let next := stepSegments c rest obs2 oracle.tail
      (⟨choice.wiggleX, seg.y, z2⟩ :: next.1, next.2)
    else
      let next := stepSegments c rest obs oracle
      ((⟨seg.x, seg.y, seg.z + c⟩ : Vec3) :: next.1, next.2)

/-- updateGame: accumulate elapsed time, recompute the forward speed,
accrue score, lerp the player toward the target lane, advance and
recycle the segments (threading obstacle removal and spawning), advance
all obstacles by the same displacement, then run collision detection. -/
def updateGame (δ : ℚ) (oracle : List RecycleChoice) (w : World) : World :=
  checkCollisions
    { w with
      elapsedSinceStart := w.elapsedSinceStart + δ,
      forwardSpeed := newSpeed w δ,
      score := w.score + δ * 10,
      player := ⟨lerpStep w.player.x w.targetLaneX δ, w.player.y, w.player.z⟩,
      slideSegments :=
        (stepSegments (newSpeed w δ * δ) w.slideSegments w.obstacles oracle).1,
      obstacles :=
        ((stepSegments (newSpeed w δ * δ) w.slideSegments w.obstacles oracle).2).map
          (advanceObstacle (newSpeed w δ * δ)) }

/-- One animation frame (animate): updateGame runs only while PLAYING. -/
def frame (δ : ℚ) (oracle : List RecycleChoice) (w : World) : World :=
  if w.gameState = GameState.PLAYING then updateGame δ oracle w else w

/-- A sequence of animation frames, each with its delta time and its
recycle oracle. -/
def runFrames (steps : List (ℚ × List RecycleChoice)) (w : World) : World :=
  steps.foldl (fun w1 s => frame s.1 s.2 w1) w

/-- handleOverlayTap: a tap on the overlay starts (or restarts) the game
from READY or GAME_OVER. -/
def handleOverlayTap (spawns : List (Option SpawnChoice)) (w : World) : World :=
  if w.gameState = GameState.READY ∨ w.gameState = GameState.GAME_OVER then
    startGame spawns w
  else w

/-- A full swipe gesture on the canvas: press at x0, a list of moves,
then release. -/
def swipeGesture (x0 : ℚ) (moves : List ℚ) (w : World) : World :=
  onPointerUp (moves.foldl (fun w1 x => onPointerMove x w1) (onPointerDown x0 w))

/-! Helper lemmas about the embedded operations. -/

/-- The source commit of score to high score (an if on score > highScore)
computes the maximum. -/
lemma score_commit_eq_max (a b : ℚ) : (if b > a then b else a) = max a b := by
  rcases le_or_lt b a with h | h
  · rw [if_neg (not_lt.mpr h), max_eq_left h]
  · rw [if_pos h, max_eq_right h.le]

/-- checkCollisions only touches gameState, highScore and obstacles. -/
lemma checkCollisions_preserves (w : World) :
    (checkCollisions w).score = w.score ∧
    (checkCollisions w).elapsedSinceStart = w.elapsedSinceStart ∧
    (checkCollisions w).forwardSpeed = w.forwardSpeed ∧
    (checkCollisions w).player = w.player ∧
    (checkCollisions w).slideSegments = w.slideSegments ∧
    (checkCollisions w).currentLaneIndex = w.currentLaneIndex ∧
    (checkCollisions w).targetLaneX = w.targetLaneX := by
  unfold checkCollisions triggerGameOver
  split <;> exact ⟨rfl, rfl, rfl, rfl, rfl, rfl, rfl⟩

/-- Field values of the world produced by updateGame. -/
lemma updateGame_fields (δ : ℚ) (oracle : List RecycleChoice) (w : World) :
    (updateGame δ oracle w).elapsedSinceStart = w.elapsedSinceStart + δ ∧
    (updateGame δ oracle w).forwardSpeed = newSpeed w δ ∧
    (updateGame δ oracle w).score = w.score + δ * 10 ∧
    (updateGame δ oracle w).player
      = ⟨lerpStep w.player.x w.targetLaneX δ, w.player.y, w.player.z⟩ ∧
    (updateGame δ oracle w).slideSegments
      = (stepSegments (newSpeed w δ * δ) w.slideSegments w.obstacles oracle).1 := by
  unfold updateGame
  have h := checkCollisions_preserves
    { w with
      elapsedSinceStart := w.elapsedSinceStart + δ,
      forwardSpeed := newSpeed w δ,
      score := w.score + δ * 10,
      player := ⟨lerpStep w.player.x w.targetLaneX δ, w.player.y, w.player.z⟩,
      slideSegments :=
        (stepSegments (newSpeed w δ * δ) w.slideSegments w.obstacles oracle).1,
      obstacles :=
        ((stepSegments (newSpeed w δ * δ) w.slideSegments w.obstacles oracle).2).map
          (advanceObstacle (newSpeed w δ * δ)) }
  exact ⟨h.2.1, h.2.2.1, h.1, h.2.2.2.1, h.2.2.2.2.1⟩

/-- Element-wise relation between a segment list and its updated version:
every z coordinate moved forward by the common displacement c, minus an
integer number of ring lengths (the recycles). -/
def zShift (c : ℚ) : List Vec3 → List Vec3 → Prop :=
  List.Forall₂ (fun a b => ∃ k : ℤ, b.z = a.z + c - ringLen * (k : ℚ))

lemma zShift_refl (a : List Vec3) : zShift 0 a a :=
  List.forall₂_same.mpr (fun _ _ => ⟨0, by push_cast; ring⟩)

lemma zShift_trans {c1 c2 : ℚ} {a b d : List Vec3}
    (h1 : zShift c1 a b) (h2 : zShift c2 b d) : zShift (c1 + c2) a d := by
  rw [zShift, List.forall₂_iff_get] at h1 h2 ⊢
  obtain ⟨l1, g1⟩ := h1
  obtain ⟨l2, g2⟩ := h2
  refine ⟨l1.trans l2, fun i h₁ h₂ => ?_⟩
  obtain ⟨k1, e1⟩ := g1 i h₁ (l1 ▸ h₁)
  obtain ⟨k2, e2⟩ := g2 i (l1 ▸ h₁) h₂
  exact ⟨k1 + k2, by rw [e2, e1]; push_cast; ring⟩

/-- One tick of the segment loop shifts every segment by the tick
displacement, up to an integer number of ring lengths. -/
lemma stepSegments_zShift (c : ℚ) (segs obs : List Vec3)
    (oracle : List RecycleChoice) :
    zShift c segs (stepSegments c segs obs oracle).1 := by
  induction segs generalizing obs oracle with
  | nil => exact List.Forall₂.nil
  | cons s rest ih =>
    unfold stepSegments
    split
    · exact List.Forall₂.cons ⟨1, by simp [ringLen]⟩ (ih _ _)
    · exact List.Forall₂.cons ⟨0, by push_cast; ring⟩ (ih _ _)

lemma updateGame_zShift (δ : ℚ) (oracle : List RecycleChoice) (w : World) :
    zShift (newSpeed w δ * δ) w.slideSegments (updateGame δ oracle w).slideSegments := by
  rw [(updateGame_fields δ oracle w).2.2.2.2]
  exact stepSegments_zShift _ _ _ _

lemma frame_zShift (δ : ℚ) (oracle : List RecycleChoice) (w : World) :
    ∃ c, zShift c w.slideSegments (frame δ oracle w).slideSegments := by
  unfold frame
  split
  · exact ⟨_, updateGame_zShift δ oracle w⟩
  · exact ⟨0, zShift_refl _⟩

lemma runFrames_zShift (steps : List (ℚ × List RecycleChoice)) :
    ∀ w : World, ∃ c, zShift c w.slideSegments (runFrames steps w).slideSegments := by
  induction steps with
  | nil => exact fun w => ⟨0, zShift_refl _⟩
  | cons s ss ih =>
    intro w
    obtain ⟨c1, h1⟩ := frame_zShift s.1 s.2 w
    obtain ⟨c2, h2⟩ := ih (frame s.1 s.2 w)
    exact ⟨c1 + c2, zShift_trans h1 h2⟩

lemma initSegments_length : initSegments.length = SEGMENT_COUNT := by
  rw [initSegments, List.length_map, List.length_range]

lemma initSegments_get (i : ℕ) (hi : i < initSegments.length) :
    (initSegments.get ⟨i, hi⟩).z = -(i : ℚ) * SEGMENT_LENGTH := by
  simp only [initSegments, List.get_eq_getElem, List.getElem_map, List.getElem_range]

lemma startGame_segments (spawns : List (Option SpawnChoice)) (w : World) :
    (startGame spawns w).slideSegments = initSegments := rfl

/-- Pairwise modular spacing of the segment ring: any two segment z
positions differ by the index difference times SEGMENT_LENGTH plus an
integer multiple of the ring length. -/
def ringSpaced (segs : List Vec3) : Prop :=
  ∀ i j (hi : i < segs.length) (hj : j < segs.length),
    ∃ n : ℤ, (segs.get ⟨i, hi⟩).z - (segs.get ⟨j, hj⟩).z
      = ((j : ℚ) - (i : ℚ)) * SEGMENT_LENGTH + (n : ℚ) * ringLen

/-- Claim C1: starting a game and running any sequence of frames (with
arbitrary delta times and spawn randomness, which in particular covers
every sequence of non-negative deltas), the ring keeps exactly
SEGMENT_COUNT segments and their forward-axis positions stay pairwise
spaced by SEGMENT_LENGTH modulo the ring length
SEGMENT_LENGTH * SEGMENT_COUNT: recycling subtracts exactly one ring
length and so never creates a gap or an overlap. -/
theorem segment_ring_invariant (steps : List (ℚ × List RecycleChoice))
    (spawns : List (Option SpawnChoice)) (w : World) :
    (runFrames steps (startGame spawns w)).slideSegments.length = SEGMENT_COUNT ∧
    ringSpaced (runFrames steps (startGame spawns w)).slideSegments := by
  obtain ⟨c, hshift⟩ := runFrames_zShift steps (startGame spawns w)
  rw [startGame_segments] at hshift
  rw [zShift, List.forall₂_iff_get] at hshift
  obtain ⟨hlen, hget⟩ := hshift
  constructor
  · rw [← hlen, initSegments_length]
  · intro i j hi hj
    have hi0 : i < initSegments.length := hlen ▸ hi
    have hj0 : j < initSegments.length := hlen ▸ hj
    obtain ⟨ki, hki⟩ := hget i hi0 hi
    obtain ⟨kj, hkj⟩ := hget j hj0 hj
    refine ⟨kj - ki, ?_⟩
    rw [hki, hkj, initSegments_get i hi0, initSegments_get j hj0]
    push_cast
    ring

/-- When no segment crosses the recycle threshold during a tick, the
segment loop only advances every segment and leaves the obstacle list
and the oracle untouched. -/
lemma stepSegments_no_recycle (c : ℚ) (segs obs : List Vec3)
    (oracle : List RecycleChoice)
    (h : ∀ s ∈ segs, ¬ (s.z + c - SEGMENT_LENGTH / 2 > cameraPos.z + 5)) :
    stepSegments c segs obs oracle
      = (segs.map (fun s => ⟨s.x, s.y, s.z + c⟩), obs) := by
  induction segs generalizing obs oracle with
  | nil => rfl
  | cons s rest ih =>
    unfold stepSegments
    rw [if_neg (h s (List.mem_cons_self s rest))]
    rw [ih obs oracle (fun x hx => h x (List.mem_cons_of_mem s hx))]
    rfl

/-- Lerping toward the position itself is the identity. -/
lemma lerpStep_self (x δ : ℚ) : lerpStep x x δ = x := by
  unfold lerpStep
  ring

/-- checkCollisions on a world with a colliding obstacle is exactly
triggerGameOver. -/
lemma checkCollisions_hit (w : World)
    (h : w.obstacles.any (fun o => collides w.player o) = true) :
    checkCollisions w = triggerGameOver w := by
  unfold checkCollisions
  rw [if_pos h]

/-- updateGame on a tick in which no segment recycles: every segment and
obstacle advances by the common displacement and collision detection
runs on the result. -/
lemma updateGame_no_recycle (δ : ℚ) (oracle : List RecycleChoice) (w : World)
    (hseg : ∀ s ∈ w.slideSegments,
      ¬ (s.z + newSpeed w δ * δ - SEGMENT_LENGTH / 2 > cameraPos.z + 5)) :
    updateGame δ oracle w = checkCollisions
      { w with
        elapsedSinceStart := w.elapsedSinceStart + δ,
        forwardSpeed := newSpeed w δ,
        score := w.score + δ * 10,
        player := ⟨lerpStep w.player.x w.targetLaneX δ, w.player.y, w.player.z⟩,
        slideSegments := w.slideSegments.map
          (fun s => ⟨s.x, s.y, s.z + newSpeed w δ * δ⟩),
        obstacles := w.obstacles.map (advanceObstacle (newSpeed w δ * δ)) } := by
  unfold updateGame
  rw [stepSegments_no_recycle _ _ _ _ hseg]

/-- An obstacle that starts at the player's exact position and is pushed
forward by less than the combined radius still collides. -/
lemma collides_self_shift (p : Vec3) (c : ℚ) (hc0 : 0 ≤ c)
    (hc1 : c < playerRadius + obstacleRadius) :
    collides p (advanceObstacle c p) = true := by
  unfold collides advanceObstacle
  rw [decide_eq_true_iff]
  have hsq : c * c < (playerRadius + obstacleRadius) * (playerRadius + obstacleRadius) :=
    mul_self_lt_mul_self hc0 hc1
  dsimp only
  nlinarith [hsq]

/-- Frames are inert outside PLAYING. -/
lemma frame_not_playing (δ : ℚ) (oracle : List RecycleChoice) (w : World)
    (h : w.gameState ≠ GameState.PLAYING) : frame δ oracle w = w := by
  unfold frame
  rw [if_neg h]

/-- Claim C2, amended: the source checks collisions only after moving the
world, so exact coincidence before the tick guarantees a game over only
when the tick displacement keeps the pair within the combined radius.
Under those conditions (obstacle at the player's exact position, player
already at its target lane X, tick displacement below the combined
radius, no segment recycling this tick), the tick ends in GAME_OVER, the
obstacle list is exactly the advanced input list (the early return skips
every removal: the distance sweep is short-circuited), and every later
frame is inert until a restart. -/
theorem collision_at_player_gives_game_over
    (w : World) (δ : ℚ) (oracle : List RecycleChoice)
    (hplay : w.gameState = GameState.PLAYING)
    (hobs : w.player ∈ w.obstacles)
    (hd0 : 0 ≤ δ) (hd1 : δ ≤ 1/20)
    (he : 0 ≤ w.elapsedSinceStart)
    (hx : w.player.x = w.targetLaneX)
    (hmove : newSpeed w δ * δ < playerRadius + obstacleRadius)
    (hseg : ∀ s ∈ w.slideSegments,
      ¬ (s.z + newSpeed w δ * δ - SEGMENT_LENGTH / 2 > cameraPos.z + 5)) :
    (updateGame δ oracle w).gameState = GameState.GAME_OVER ∧
    (updateGame δ oracle w).obstacles
      = w.obstacles.map (advanceObstacle (newSpeed w δ * δ)) ∧
    ∀ (δ2 : ℚ) (oracle2 : List RecycleChoice),
      frame δ2 oracle2 (updateGame δ oracle w) = updateGame δ oracle w := by
  have hc0 : 0 ≤ newSpeed w δ * δ := by
    apply mul_nonneg _ hd0
    unfold newSpeed baseForwardSpeed
    linarith
  have hplayer : (⟨lerpStep w.player.x w.targetLaneX δ, w.player.y, w.player.z⟩ : Vec3)
      = w.player := by
    rw [← hx, lerpStep_self]
  have hany : (w.obstacles.map (advanceObstacle (newSpeed w δ * δ))).any
      (fun o => collides
        (⟨lerpStep w.player.x w.targetLaneX δ, w.player.y, w.player.z⟩ : Vec3) o)
      = true := by
    rw [hplayer]
    exact List.any_eq_true.mpr
      ⟨advanceObstacle (newSpeed w δ * δ) w.player,
       List.mem_map_of_mem _ hobs, collides_self_shift w.player _ hc0 hmove⟩
  have hup : updateGame δ oracle w = triggerGameOver
      { w with
        elapsedSinceStart := w.elapsedSinceStart + δ,
        forwardSpeed := newSpeed w δ,
        score := w.score + δ * 10,
        player := ⟨lerpStep w.player.x w.targetLaneX δ, w.player.y, w.player.z⟩,
        slideSegments := w.slideSegments.map
          (fun s => ⟨s.x, s.y, s.z + newSpeed w δ * δ⟩),
        obstacles := w.obstacles.map (advanceObstacle (newSpeed w δ * δ)) } := by
    rw [updateGame_no_recycle δ oracle w hseg]
    exact checkCollisions_hit _ hany
  refine ⟨by rw [hup]; rfl, by rw [hup]; rfl, fun δ2 oracle2 => ?_⟩
  apply frame_not_playing
  rw [hup]
  intro hcon
  exact GameState.noConfusion hcon

/-- Concrete world used to witness the amended collision claim: a fresh
PLAYING world with a single obstacle exactly at the player position. -/
def cwCollide : World :=
  { gameState := GameState.PLAYING, score := 0, highScore := 0,
    elapsedSinceStart := 0, forwardSpeed := baseForwardSpeed,
    currentLaneIndex := 1, targetLaneX := 0,
    player := ⟨0, 1, 0⟩, slideSegments := initSegments,
    obstacles := [⟨0, 1, 0⟩],
    isDragging := false, dragStartX := 0, dragCurrentX := 0 }

theorem collision_at_player_gives_game_over_witness :
    (updateGame (1/100) [] cwCollide).gameState = GameState.GAME_OVER :=
  (collision_at_player_gives_game_over cwCollide (1/100) []
    rfl (by with_unfolding_all decide) (by with_unfolding_all decide)
    (by with_unfolding_all decide) (by with_unfolding_all decide)
    (by with_unfolding_all decide) (by with_unfolding_all decide)
    (by with_unfolding_all decide)).1

/-- Concrete world refuting claim C2 as stated: after 100 seconds of
play the recomputed forward speed is 60.025, so with the admissible
delta 0.05 the obstacle that coincided with the player before the tick
is displaced by about 3 units before the collision check runs and no
game over fires. -/
def cwMiss : World :=
  { gameState := GameState.PLAYING, score := 0, highScore := 0,
    elapsedSinceStart := 100, forwardSpeed := 60,
    currentLaneIndex := 1, targetLaneX := 0,
    player := ⟨0, 1, 0⟩, slideSegments := initSegments,
    obstacles := [⟨0, 1, 0⟩],
    isDragging := false, dragStartX := 0, dragCurrentX := 0 }

/-- Counterexample to claim C2 as stated: the state is PLAYING, an
obstacle sits exactly at the player position, the delta 0.05 is
admissible, yet the tick does not transition to GAME_OVER. -/
theorem collision_claim_counterexample :
    cwMiss.gameState = GameState.PLAYING ∧
    cwMiss.player ∈ cwMiss.obstacles ∧
    (0 : ℚ) ≤ 1/20 ∧ (1/20 : ℚ) ≤ 1/20 ∧
    (updateGame (1/20) [] cwMiss).gameState ≠ GameState.GAME_OVER := by
  with_unfolding_all decide

/-- checkCollisions leaves no far obstacle behind whenever it does not
end in GAME_OVER: the cleanup filter ran. -/
lemma checkCollisions_cleanup (w : World)
    (hno : (checkCollisions w).gameState ≠ GameState.GAME_OVER) :
    ∀ o ∈ (checkCollisions w).obstacles, o.z ≤ cameraPos.z + 10 := by
  unfold checkCollisions at hno ⊢
  by_cases h : w.obstacles.any (fun o => collides w.player o) = true
  · rw [if_pos h] at hno
    exact absurd rfl hno
  · rw [if_neg h] at hno ⊢
    intro o ho
    dsimp only at ho
    rw [List.mem_filter] at ho
    exact not_lt.mp (of_decide_eq_true ho.2)

/-- Claim C3, amended: after a completed PLAYING tick that does not end
in GAME_OVER, no live obstacle sits more than 10 units past the camera z.
(When a collision fires during the tick, the early return skips the
sweep, so the guarantee holds only for collision-free ticks.) -/
theorem obstacle_cleanup_after_tick (w : World) (δ : ℚ)
    (oracle : List RecycleChoice)
    (hplay : w.gameState = GameState.PLAYING)
    (hno : (updateGame δ oracle w).gameState ≠ GameState.GAME_OVER) :
    ∀ o ∈ (updateGame δ oracle w).obstacles, o.z ≤ cameraPos.z + 10 := by
  unfold updateGame at hno ⊢
  exact checkCollisions_cleanup _ hno

/-- Concrete world used to witness the amended cleanup claim: a PLAYING
world whose only obstacle is still visible in front of the camera. -/
def cwSweep : World :=
  { gameState := GameState.PLAYING, score := 0, highScore := 0,
    elapsedSinceStart := 0, forwardSpeed := baseForwardSpeed,
    currentLaneIndex := 1, targetLaneX := 0,
    player := ⟨0, 1, 0⟩, slideSegments := initSegments,
    obstacles := [⟨0, 1, 5⟩],
    isDragging := false, dragStartX := 0, dragCurrentX := 0 }

theorem obstacle_cleanup_after_tick_witness :
    (Vec3.mk 0 1 5).z ≤ cameraPos.z + 10 :=
  obstacle_cleanup_after_tick cwSweep 0 [] rfl
    (by with_unfolding_all decide) ⟨0, 1, 5⟩ (by with_unfolding_all decide)

/-- Concrete world refuting claim C3 as stated: one obstacle far behind
the camera (z = 30) and one at the player.  The collision on the second
obstacle triggers the early return, so the stale obstacle survives the
completed tick. -/
def cwStale : World :=
  { gameState := GameState.PLAYING, score := 0, highScore := 0,
    elapsedSinceStart := 0, forwardSpeed := baseForwardSpeed,
    currentLaneIndex := 1, targetLaneX := 0,
    player := ⟨0, 1, 0⟩, slideSegments := initSegments,
    obstacles := [⟨0, 1, 30⟩, ⟨0, 1, 0⟩],
    isDragging := false, dragStartX := 0, dragCurrentX := 0 }

/-- Counterexample to claim C3 as stated: after a completed PLAYING tick
(which ends in GAME_OVER through a collision), the obstacle that started
at z = 30 is still in the live collection with z further than 10 units
past the camera: the early return skipped the sweep. -/
theorem cleanup_claim_counterexample :
    cwStale.gameState = GameState.PLAYING ∧
    (updateGame (1/100) [] cwStale).gameState = GameState.GAME_OVER ∧
    (advanceObstacle (newSpeed cwStale (1/100) * (1/100)) ⟨0, 1, 30⟩)
      ∈ (updateGame (1/100) [] cwStale).obstacles ∧
    (advanceObstacle (newSpeed cwStale (1/100) * (1/100)) (⟨0, 1, 30⟩ : Vec3)).z
      > cameraPos.z + 10 := by
  have hcval : newSpeed cwStale (1/100) * (1/100) = 2001/20000 := by
    norm_num [newSpeed, baseForwardSpeed, cwStale]
  have hseg : ∀ s ∈ cwStale.slideSegments,
      ¬ (s.z + newSpeed cwStale (1/100) * (1/100) - SEGMENT_LENGTH / 2
        > cameraPos.z + 5) := by
    intro s hs
    rw [show cwStale.slideSegments = initSegments from rfl, initSegments,
      List.mem_map] at hs
    obtain ⟨i, hi, rfl⟩ := hs
    rw [hcval]
    show ¬ (-(i : ℚ) * SEGMENT_LENGTH + 2001/20000 - SEGMENT_LENGTH / 2
      > cameraPos.z + 5)
    have hnn : (0 : ℚ) ≤ (i : ℚ) := Nat.cast_nonneg i
    unfold SEGMENT_LENGTH cameraPos
    dsimp only
    nlinarith [hnn]
  have hP : (⟨lerpStep cwStale.player.x cwStale.targetLaneX (1/100),
      cwStale.player.y, cwStale.player.z⟩ : Vec3) = ⟨0, 1, 0⟩ := by
    show (⟨lerpStep 0 0 (1/100), 1, 0⟩ : Vec3) = ⟨0, 1, 0⟩
    rw [lerpStep_self]
  have hany : (cwStale.obstacles.map
        (advanceObstacle (newSpeed cwStale (1/100) * (1/100)))).any
      (fun o => collides
        (⟨lerpStep cwStale.player.x cwStale.targetLaneX (1/100),
          cwStale.player.y, cwStale.player.z⟩ : Vec3) o) = true := by
    rw [hP]
    refine List.any_eq_true.mpr
      ⟨advanceObstacle (newSpeed cwStale (1/100) * (1/100)) ⟨0, 1, 0⟩,
       List.mem_map_of_mem _
         (List.mem_cons_of_mem _ (List.mem_cons_self _ _)), ?_⟩
    refine collides_self_shift ⟨0, 1, 0⟩ _ ?_ ?_
    · rw [hcval]
      norm_num
    · rw [hcval]
      unfold playerRadius obstacleRadius
      norm_num
  have hup := updateGame_no_recycle (1/100) [] cwStale hseg
  rw [checkCollisions_hit _ hany] at hup
  refine ⟨rfl, ?_, ?_, ?_⟩
  · rw [hup]
    rfl
  · rw [hup]
    show advanceObstacle (newSpeed cwStale (1/100) * (1/100)) ⟨0, 1, 30⟩
      ∈ cwStale.obstacles.map
        (advanceObstacle (newSpeed cwStale (1/100) * (1/100)))
    exact List.mem_map_of_mem _ (List.mem_cons_self _ _)
  · show (30 : ℚ) + newSpeed cwStale (1/100) * (1/100) > cameraPos.z + 10
    rw [hcval]
    unfold cameraPos
    norm_num

/-- Claim C4: setLane clamps every requested integer index into
[0, laneCount - 1]; in particular requesting 5 with 3 lanes yields 2. -/
theorem setLane_clamps (i : ℤ) (w : World) :
    0 ≤ (setLane i w).currentLaneIndex ∧
    (setLane i w).currentLaneIndex ≤ (LANE_X_POSITIONS.length : ℤ) - 1 ∧
    (setLane 5 w).currentLaneIndex = 2 := by
  have hlen : (LANE_X_POSITIONS.length : ℤ) - 1 = 2 := by
    norm_num [LANE_X_POSITIONS]
  unfold setLane
  dsimp only
  rw [hlen]
  refine ⟨le_max_left 0 _, max_le (by norm_num) (min_le_left _ _), by decide⟩

/-- A frame with non-negative delta preserves the linear speed ramp
invariant and never decreases the forward speed. -/
lemma frame_speed (δ : ℚ) (oracle : List RecycleChoice) (w : World)
    (hd : 0 ≤ δ)
    (h1 : w.forwardSpeed = baseForwardSpeed + w.elapsedSinceStart * (1/2))
    (h2 : 0 ≤ w.elapsedSinceStart) :
    ((frame δ oracle w).forwardSpeed
      = baseForwardSpeed + (frame δ oracle w).elapsedSinceStart * (1/2)) ∧
    0 ≤ (frame δ oracle w).elapsedSinceStart ∧
    w.forwardSpeed ≤ (frame δ oracle w).forwardSpeed := by
  unfold frame
  split
  · obtain ⟨he, hf, -, -, -⟩ := updateGame_fields δ oracle w
    rw [he, hf]
    unfold newSpeed
    exact ⟨by ring, by linarith, by rw [h1]; linarith⟩
  · exact ⟨h1, h2, le_refl _⟩

/-- The speed ramp invariant carried through any run of frames with
non-negative deltas. -/
lemma runFrames_speed_inv (steps : List (ℚ × List RecycleChoice))
    (hpos : ∀ s ∈ steps, 0 ≤ s.1) :
    ∀ w : World,
      w.forwardSpeed = baseForwardSpeed + w.elapsedSinceStart * (1/2) →
      0 ≤ w.elapsedSinceStart →
      (runFrames steps w).forwardSpeed
        = baseForwardSpeed + (runFrames steps w).elapsedSinceStart * (1/2) ∧
      0 ≤ (runFrames steps w).elapsedSinceStart := by
  induction steps with
  | nil => exact fun w h1 h2 => ⟨h1, h2⟩
  | cons s ss ih =>
    intro w h1 h2
    have hs := frame_speed s.1 s.2 w (hpos s (List.mem_cons_self s ss)) h1 h2
    exact ih (fun x hx => hpos x (List.mem_cons_of_mem s hx))
      (frame s.1 s.2 w) hs.1 hs.2.1

/-- Claim C5: along every run of PLAYING frames with non-negative deltas
after a start, forwardSpeed equals baseForwardSpeed plus 0.5 times the
accumulated elapsed survival time, hence it is at least baseForwardSpeed,
and one more frame with non-negative delta never decreases it. -/
theorem forward_speed_ramp (steps : List (ℚ × List RecycleChoice))
    (spawns : List (Option SpawnChoice)) (w : World)
    (hpos : ∀ s ∈ steps, 0 ≤ s.1) :
    (runFrames steps (startGame spawns w)).forwardSpeed
      = baseForwardSpeed
        + (runFrames steps (startGame spawns w)).elapsedSinceStart * (1/2) ∧
    baseForwardSpeed ≤ (runFrames steps (startGame spawns w)).forwardSpeed ∧
    ∀ (δ : ℚ) (oracle : List RecycleChoice), 0 ≤ δ →
      (runFrames steps (startGame spawns w)).forwardSpeed
        ≤ (frame δ oracle (runFrames steps (startGame spawns w))).forwardSpeed := by
  have h0 : (startGame spawns w).forwardSpeed
      = baseForwardSpeed + (startGame spawns w).elapsedSinceStart * (1/2) := by
    show baseForwardSpeed = baseForwardSpeed + 0 * (1/2)
    ring
  have h2 : (0 : ℚ) ≤ (startGame spawns w).elapsedSinceStart := le_refl 0
  obtain ⟨hinv, hnn⟩ := runFrames_speed_inv steps hpos (startGame spawns w) h0 h2
  refine ⟨hinv, ?_, ?_⟩
  · rw [hinv]
    linarith
  · intro δ oracle hd
    exact (frame_speed δ oracle _ hd hinv hnn).2.2

/-- Concrete world used to witness the forward speed ramp. -/
def cwSpeed : World :=
  { gameState := GameState.PLAYING, score := 0, highScore := 0,
    elapsedSinceStart := 0, forwardSpeed := baseForwardSpeed,
    currentLaneIndex := 1, targetLaneX := 0,
    player := ⟨0, 1, 0⟩, slideSegments := initSegments,
    obstacles := [],
    isDragging := false, dragStartX := 0, dragCurrentX := 0 }

theorem forward_speed_ramp_witness :
    baseForwardSpeed
      ≤ (runFrames [((1/100 : ℚ), ([] : List RecycleChoice))]
          (startGame [] cwSpeed)).forwardSpeed :=
  (forward_speed_ramp [((1/100 : ℚ), ([] : List RecycleChoice))] [] cwSpeed
    (by intro s hs; rw [List.mem_singleton] at hs; subst hs; norm_num)).2.1

/-- Claim C6: score never decreases across a PLAYING frame with a
non-negative delta, stays constant across a GAME_OVER frame, and is 0
immediately after a start or restart trigger. -/
theorem score_rules (w1 w2 w3 : World) (δ1 δ2 : ℚ)
    (oracle1 oracle2 : List RecycleChoice) (spawns : List (Option SpawnChoice))
    (h1 : w1.gameState = GameState.PLAYING) (hd : 0 ≤ δ1)
    (h2 : w2.gameState = GameState.GAME_OVER) :
    w1.score ≤ (frame δ1 oracle1 w1).score ∧
    (frame δ2 oracle2 w2).score = w2.score ∧
    (startGame spawns w3).score = 0 := by
  refine ⟨?_, ?_, rfl⟩
  · unfold frame
    rw [if_pos h1, (updateGame_fields δ1 oracle1 w1).2.2.1]
    linarith
  · rw [frame_not_playing _ _ _ (by rw [h2]; decide)]

/-- Concrete PLAYING world for the score witness. -/
def cwScorePlaying : World :=
  { gameState := GameState.PLAYING, score := 7, highScore := 0,
    elapsedSinceStart := 0, forwardSpeed := baseForwardSpeed,
    currentLaneIndex := 1, targetLaneX := 0,
    player := ⟨0, 1, 0⟩, slideSegments := initSegments,
    obstacles := [],
    isDragging := false, dragStartX := 0, dragCurrentX := 0 }

/-- Concrete GAME_OVER world for the score witness. -/
def cwScoreOver : World :=
  { gameState := GameState.GAME_OVER, score := 7, highScore := 7,
    elapsedSinceStart := 0, forwardSpeed := baseForwardSpeed,
    currentLaneIndex := 1, targetLaneX := 0,
    player := ⟨0, 1, 0⟩, slideSegments := initSegments,
    obstacles := [],
    isDragging := false, dragStartX := 0, dragCurrentX := 0 }

theorem score_rules_witness :
    cwScorePlaying.score ≤ (frame (1/100) [] cwScorePlaying).score :=
  (score_rules cwScorePlaying cwScoreOver cwScorePlaying (1/100) (1/100) [] [] []
    rfl (by with_unfolding_all decide) rfl).1

/-- Claim C7: at the game-over transition the new high score is the
maximum of the previous high score and the current score. -/
theorem trigger_game_over_commits_high_score (w : World) :
    (triggerGameOver w).highScore = max w.highScore w.score ∧
    (triggerGameOver w).gameState = GameState.GAME_OVER :=
  ⟨score_commit_eq_max w.highScore w.score, rfl⟩

/-- Folding pointer moves over a dragging world only updates the latest
drag X. -/
lemma foldl_onPointerMove (xs : List ℚ) (w : World) (h : w.isDragging = true) :
    xs.foldl (fun w1 x => onPointerMove x w1) w
      = { w with dragCurrentX := xs.getLastD w.dragCurrentX } := by
  induction xs generalizing w with
  | nil => rfl
  | cons x xs ih =>
    rw [List.foldl_cons]
    have hm : onPointerMove x w = { w with dragCurrentX := x } := by
      unfold onPointerMove
      rw [if_pos h]
    rw [hm, ih { w with dragCurrentX := x } h, List.getLastD_cons]

/-- Claim C8, amended: the canvas pointer pipeline applies the swipe on
release without inspecting the game state.  A full press-move-release
gesture never changes the game state, and it updates the current lane
index by the clamped swipe rule in every state (READY and GAME_OVER
included), exactly as it would while PLAYING. -/
theorem swipe_applies_regardless_of_state (w : World) (x0 : ℚ) (moves : List ℚ) :
    (swipeGesture x0 moves w).gameState = w.gameState ∧
    (swipeGesture x0 moves w).currentLaneIndex =
      (if moves.getLastD x0 - x0 > SWIPE_THRESHOLD then
        max 0 (min ((LANE_X_POSITIONS.length : ℤ) - 1) (w.currentLaneIndex + 1))
      else if moves.getLastD x0 - x0 < -SWIPE_THRESHOLD then
        max 0 (min ((LANE_X_POSITIONS.length : ℤ) - 1) (w.currentLaneIndex - 1))
      else w.currentLaneIndex) := by
  unfold swipeGesture
  rw [foldl_onPointerMove _ _ rfl]
  unfold onPointerUp onPointerDown setLane
  rw [if_pos rfl]
  dsimp only
  constructor
  · by_cases hgt : moves.getLastD x0 - x0 > SWIPE_THRESHOLD
    · rw [if_pos hgt]
    · rw [if_neg hgt]
      by_cases hlt : moves.getLastD x0 - x0 < -SWIPE_THRESHOLD
      · rw [if_pos hlt]
      · rw [if_neg hlt]
  · by_cases hgt : moves.getLastD x0 - x0 > SWIPE_THRESHOLD
    · rw [if_pos hgt, if_pos hgt]
    · rw [if_neg hgt, if_neg hgt]
      by_cases hlt : moves.getLastD x0 - x0 < -SWIPE_THRESHOLD
      · rw [if_pos hlt, if_pos hlt]
      · rw [if_neg hlt, if_neg hlt]

/-- Concrete READY world refuting claim C8 as stated. -/
def cwReady : World :=
  { gameState := GameState.READY, score := 0, highScore := 0,
    elapsedSinceStart := 0, forwardSpeed := baseForwardSpeed,
    currentLaneIndex := 1, targetLaneX := 0,
    player := ⟨0, 1, 0⟩, slideSegments := initSegments,
    obstacles := [],
    isDragging := false, dragStartX := 0, dragCurrentX := 0 }

/-- Counterexample to claim C8 as stated: a rightward swipe of 50 pixels
performed while READY changes both the current lane index (1 to 2) and
the target lane X (0 to 1.5), so it is not a no-op; only the game state
is left untouched. -/
theorem swipe_claim_counterexample :
    cwReady.gameState = GameState.READY ∧
    cwReady.currentLaneIndex = 1 ∧
    cwReady.targetLaneX = 0 ∧
    (swipeGesture 0 [50] cwReady).currentLaneIndex = 2 ∧
    (swipeGesture 0 [50] cwReady).targetLaneX = 3/2 ∧
    (swipeGesture 0 [50] cwReady).gameState = GameState.READY := by
  with_unfolding_all decide

/-- Claim C9: the lane interpolation step never overshoots: for a
non-negative delta the new coordinate stays in the closed interval
between the old coordinate and the target, the distance to the target
never increases, and this is exactly the player x update performed by
updateGame. -/
theorem lerp_no_overshoot (x t δ : ℚ) (hd : 0 ≤ δ) :
    min x t ≤ lerpStep x t δ ∧ lerpStep x t δ ≤ max x t ∧
    |t - lerpStep x t δ| ≤ |t - x| ∧
    ∀ (w : World) (oracle : List RecycleChoice),
      (updateGame δ oracle w).player.x = lerpStep w.player.x w.targetLaneX δ := by
  have hf0 : 0 ≤ min (LERP_FACTOR * δ) 1 := by
    refine le_min ?_ ?_
    · unfold LERP_FACTOR
      linarith
    · norm_num
  have hf1 : min (LERP_FACTOR * δ) 1 ≤ 1 := min_le_right _ _
  have hlast : ∀ (w : World) (oracle : List RecycleChoice),
      (updateGame δ oracle w).player.x = lerpStep w.player.x w.targetLaneX δ := by
    intro w oracle
    rw [(updateGame_fields δ oracle w).2.2.2.1]
  refine ⟨?_, ?_, ?_, hlast⟩
  · unfold lerpStep
    rcases le_total x t with h | h
    · rw [min_eq_left h]
      nlinarith [mul_nonneg (sub_nonneg.mpr h) hf0]
    · rw [min_eq_right h]
      nlinarith [mul_nonneg (sub_nonneg.mpr h) (sub_nonneg.mpr hf1)]
  · unfold lerpStep
    rcases le_total x t with h | h
    · rw [max_eq_right h]
      nlinarith [mul_nonneg (sub_nonneg.mpr h) (sub_nonneg.mpr hf1)]
    · rw [max_eq_left h]
      nlinarith [mul_nonneg (sub_nonneg.mpr h) hf0]
  · unfold lerpStep
    rw [show t - (x + (t - x) * min (LERP_FACTOR * δ) 1)
        = (t - x) * (1 - min (LERP_FACTOR * δ) 1) from by ring, abs_mul]
    have h1f : |1 - min (LERP_FACTOR * δ) 1| ≤ 1 := by
      rw [abs_of_nonneg (by linarith)]
      linarith
    calc |t - x| * |1 - min (LERP_FACTOR * δ) 1|
        ≤ |t - x| * 1 := mul_le_mul_of_nonneg_left h1f (abs_nonneg _)
      _ = |t - x| := mul_one _

theorem lerp_no_overshoot_witness :
    min (0 : ℚ) 1 ≤ lerpStep 0 1 (1/10) :=
  (lerp_no_overshoot 0 1 (1/10) (by norm_num)).1

/-- Claim C10: triggerGameOver is atomic with respect to the world: it
sets the game state to GAME_OVER, commits the high score to the maximum,
and leaves the score, elapsed time, forward speed, player position,
every segment, the obstacle collection, the lane state and the drag
state untouched. -/
theorem trigger_game_over_frame_effect (w : World) :
    (triggerGameOver w).gameState = GameState.GAME_OVER ∧
    (triggerGameOver w).highScore = max w.highScore w.score ∧
    (triggerGameOver w).score = w.score ∧
    (triggerGameOver w).elapsedSinceStart = w.elapsedSinceStart ∧
    (triggerGameOver w).forwardSpeed = w.forwardSpeed ∧
    (triggerGameOver w).player = w.player ∧
    (triggerGameOver w).slideSegments = w.slideSegments ∧
    (triggerGameOver w).obstacles = w.obstacles ∧
    (triggerGameOver w).currentLaneIndex = w.currentLaneIndex ∧
    (triggerGameOver w).targetLaneX = w.targetLaneX ∧
    (triggerGameOver w).isDragging = w.isDragging :=
  ⟨rfl, score_commit_eq_max _ _, rfl, rfl, rfl, rfl, rfl, rfl, rfl, rfl, rfl⟩

end BlueSlide
